import Mathlib

/-!
Verification of the integration-test orchestrator
(`integration-testing/scripts/run_integration_tests.py`).

The Python runner is embedded shallowly:

* Filesystem paths are lists of components (`FsPath`); `pathStr` renders them
  the way `str(pathlib.Path(...))` does.
* `run_integration_test` becomes the pure function `runOne` over an `Env`
  record that captures everything the outside world feeds one invocation:
  whether `ExampleInfo.json` exists and parses, which capture mode is active,
  the child process events (buffered completion / timeout, streamed lines with
  the wall-clock reading taken after each line, exceptions), the text read
  back from the log file, and abstract wall-clock durations (rationals stand
  in for Python floats).  `runOne` returns the `(launcher, success, message,
  elapsed)` tuple (`Outcome`) plus a `Trace` of externally visible actions
  (child spawned / terminated / still running, the pattern checks displayed
  in streaming mode).  Exceptions raised by library calls are modelled as
  `Option String` fields; the Python regular-expression engine
  `re.search(p, text, re.DOTALL)` is an abstract boolean field `search` of
  the environment (instantiated with plain substring search, its semantics
  on metacharacter-free patterns, in concrete examples).
* The `ThreadPoolExecutor` loop of `main` with one worker is `runAllSeq`;
  the race between the worker thread grabbing the next queued unit and the
  main thread cancelling pending futures after a failure is an explicit
  schedule parameter `eagerGrab`.
* `generate_report` becomes `generateReport`, returning `none` exactly when
  the Python code would raise `ZeroDivisionError`.
* `find_integration_tests` becomes `findIntegrationTests`; Python's
  case-insensitive substring test `a.lower() in b.lower()` is `strContainsCI`
  (ASCII lowering, the alphabet used by module paths).
-/

namespace RunIT

/-- A filesystem path as its list of components. -/
abbrev FsPath := List String

/-- `str(path)` for a `pathlib.Path` built from components (`Path(".")` for
the empty path). -/
def pathStr (p : FsPath) : String :=
  if p.isEmpty then "." else String.intercalate "/" p

/-- `launcher.parent / "ExampleInfo.json"` (line 89). -/
def infoFilePath (launcher : FsPath) : FsPath :=
  launcher.dropLast ++ ["ExampleInfo.json"]

/-- `launcher.parent.parent`, the module path used for filtering (line 50). -/
def moduleParent2 (launcher : FsPath) : FsPath :=
  launcher.dropLast.dropLast

/-- ASCII lower-casing of one character, the fragment of `str.lower()`
exercised by module paths and filter patterns. -/
def charLower (c : Char) : Char :=
  if 'A' ≤ c ∧ c ≤ 'Z' then Char.ofNat (c.toNat + 32) else c

/-- `s.lower()` on ASCII text. -/
def strLower (s : String) : String :=
  ⟨s.data.map charLower⟩

/-- Substring test on character lists (Python's `needle in hay`). -/
def subList : List Char → List Char → Bool
  | n, [] => n.isEmpty
  | n, c :: t => n.isPrefixOf (c :: t) || subList n t

/-- `needle.lower() in hay.lower()` (line 51). -/
def strContainsCI (hay needle : String) : Bool :=
  subList (strLower needle).data (strLower hay).data

/-- `re.search(pat, text, re.DOTALL) is not None` restricted to
metacharacter-free patterns, where it is plain substring search; used to
instantiate the abstract matcher in concrete examples. -/
def litSearch (pat text : String) : Bool :=
  subList pat.data text.data

/-- The per-unit descriptor `ExampleInfo.json`: `config.get("timeoutSec", 300)`
and `config.get("successRegex", [])` are the only fields read. -/
structure Config where
  timeoutSec : Option Nat
  successRegex : List String
deriving Repr, DecidableEq

/-- `config.get("timeoutSec", 300)` (line 122). -/
def Config.timeout (c : Config) : Nat :=
  c.timeoutSec.getD 300

/-- Outcome of loading the descriptor (lines 89-98): the file may be absent,
its content may fail `json.load` (carrying the decoder's message), or it
yields a `Config`. -/
inductive LoadResult where
  | missing
  | parseError (e : String)
  | ok (config : Config)
deriving Repr, DecidableEq

/-- One completed iteration of the streaming read loop (lines 143-166):
the line read and the value of `time.time() - start_stream_time` taken
after reading it (line 151). -/
structure StreamEvent where
  line : String
  elapsed : ℚ
deriving Repr, DecidableEq

/-- How the streaming loop ends after its recorded events: the child exits
and `process.wait()` returns a code, or an exception is raised inside the
inner `try` (line 172), in which case the child may or may not still be
alive. -/
inductive StreamPost where
  | normal (returnCode : Int)
  | exception (e : String) (childStillRunning : Bool)
deriving Repr, DecidableEq

/-- The streaming execution as observed from outside: either `Popen`/`open`
raises before any output is read (`spawnFail`, caught at line 172), or the
loop processes `events` and then ends as `post`. -/
inductive StreamExec where
  | spawnFail (e : String)
  | run (events : List StreamEvent) (post : StreamPost)
deriving Repr, DecidableEq

/-- The buffered execution (lines 179-192): `subprocess.run` either raises
`TimeoutExpired` (after killing the child), returns a code, or raises some
other exception (spawn/I-O failure, caught by the outer handler at line 264;
`spawned` records whether the child had been created). -/
inductive BufferedExec where
  | timeoutExpired
  | completed (returnCode : Int)
  | raised (e : String) (spawned : Bool)
deriving Repr, DecidableEq

/-- Everything the outside world feeds one call of `run_integration_test`.
`tLoad` is the wall clock consumed up to the descriptor-loading returns,
`tRun` the additional wall clock consumed by the execution phase; the
returned elapsed time is `tLoad` for descriptor failures and
`tLoad + tRun` for every later return.  `childDuration` is a ghost
observation: the child process's actual wall-clock lifetime (used only to
state properties, never read by the runner).  `search p text` models
`re.search(p, text, re.DOTALL) is not None`. -/
structure Env where
  launcher : FsPath
  load : LoadResult
  stream : Bool
  preException : Option String
  bufferedExec : BufferedExec
  streamExec : StreamExec
  output : String
  postException : Option String
  search : String → String → Bool
  childDuration : ℚ
  tLoad : ℚ
  tRun : ℚ

/-- The tuple `(launcher, success, error_message, execution_time)` returned
by `run_integration_test` (line 86). -/
structure Outcome where
  launcher : FsPath
  success : Bool
  message : String
  elapsed : ℚ
deriving Repr, DecidableEq

/-- Externally visible actions of one run: whether the child process was
created, whether `terminate()` was sent by the streaming timeout check,
whether the child is still running when the runner returns, and the
pattern-verification lines displayed in streaming mode (lines 237-244). -/
structure Trace where
  spawned : Bool
  terminatedByTimeout : Bool
  childRunning : Bool
  patternChecks : List (String × Bool)
deriving Repr, DecidableEq

/-- Trace of a run that never created a child process. -/
def noSpawn : Trace :=
  ⟨false, false, false, []⟩

/-- Lines 194-262: after a return code is obtained, the log file is read
back (a failure there is caught by the outer handler), the streaming
display re-checks each declared pattern against the captured output
(lines 237-244, display only), and the verdict is decided by the exit code
alone (lines 249-262). -/
def afterExec (env : Env) (config : Config) (rc : Int) (isStream : Bool) :
    Outcome × Trace :=
  match env.postException with
  | some e =>
      (⟨env.launcher, false, "Execution error: " ++ e, env.tLoad + env.tRun⟩,
       ⟨true, false, false, []⟩)
  | none =>
      let checks :=
        if isStream then
          config.successRegex.map (fun p => (p, env.search p env.output))
        else []
      if rc ≠ 0 then
        (⟨env.launcher, false, "Exit code " ++ toString rc, env.tLoad + env.tRun⟩,
         ⟨true, false, false, checks⟩)
      else
        (⟨env.launcher, true, "Success", env.tLoad + env.tRun⟩,
         ⟨true, false, false, checks⟩)

/-- `run_integration_test` (lines 82-265) as a pure function of the
environment.  Control flow mirrors the source: missing descriptor and JSON
parse error return before any child process exists; an exception before the
spawn is caught by the outer handler; streaming mode terminates the child
and reports a timeout at the first line whose wall-clock reading exceeds
the deadline (line 154), otherwise proceeds with the waited-for return
code, with inner exceptions reported as streaming errors (line 173);
buffered mode maps `TimeoutExpired` to a timeout outcome (line 192) and
other exceptions to execution errors (line 265). -/
def runOne (env : Env) : Outcome × Trace :=
  match env.load with
  | .missing =>
      (⟨env.launcher, false, "Missing " ++ pathStr (infoFilePath env.launcher),
        env.tLoad⟩, noSpawn)
  | .parseError e =>
      (⟨env.launcher, false,
        "Invalid JSON in " ++ pathStr (infoFilePath env.launcher) ++ ": " ++ e,
        env.tLoad⟩, noSpawn)
  | .ok config =>
      match env.preException with
      | some e =>
          (⟨env.launcher, false, "Execution error: " ++ e,
            env.tLoad + env.tRun⟩, noSpawn)
      | none =>
          if env.stream then
            match env.streamExec with
            | .spawnFail e =>
                (⟨env.launcher, false, "Streaming error: " ++ e,
                  env.tLoad + env.tRun⟩, noSpawn)
            | .run events post =>
                if events.any (fun ev => (config.timeout : ℚ) < ev.elapsed) then
                  (⟨env.launcher, false,
                    "Timeout after " ++ toString config.timeout ++ "s",
                    env.tLoad + env.tRun⟩,
                   ⟨true, true, false, []⟩)
                else
                  match post with
                  | .exception e still =>
                      (⟨env.launcher, false, "Streaming error: " ++ e,
                        env.tLoad + env.tRun⟩,
                       ⟨true, false, still, []⟩)
                  | .normal rc => afterExec env config rc true
          else
            match env.bufferedExec with
            | .timeoutExpired =>
                (⟨env.launcher, false,
                  "Timeout after " ++ toString config.timeout ++ "s",
                  env.tLoad + env.tRun⟩,
                 ⟨true, true, false, []⟩)
            | .raised e spawned =>
                (⟨env.launcher, false, "Execution error: " ++ e,
                  env.tLoad + env.tRun⟩,
                 ⟨spawned, false, false, []⟩)
            | .completed rc => afterExec env config rc false

/-- Replace the declared success patterns of an environment's descriptor,
leaving everything else unchanged (used to state that the verdict never
consults them). -/
def setPatterns (env : Env) (ps : List String) : Env :=
  { env with
    load := match env.load with
            | .ok c => .ok { c with successRegex := ps }
            | other => other }

/-- Result of the scheduling loop of `main` (lines 420-466): the outcomes
appended to `results`, the launchers whose child process was actually
dispatched, and the process exit code (`sys.exit(1)` when any collected
outcome failed, otherwise the implicit 0). -/
structure SchedResult where
  collected : List Outcome
  dispatched : List FsPath
  exitCode : Nat
deriving Repr, DecidableEq

/-- The `ThreadPoolExecutor` loop with one worker (lines 420-444), with the
thread interleaving made explicit.  All futures are submitted up front; the
single worker runs them in submission order, so `as_completed` hands the
main thread the outcomes in that same order.  On a failure with
`--fail-fast` the main thread breaks out of the collection loop and calls
`cancel()` on every future; a future not yet started is thereby prevented
from running, but the worker thread does not wait for the main thread, so
it may have grabbed the next queued unit before the cancellation reaches
it.  `eagerGrab = true` is the interleaving in which the worker picks up
the next unit in that window (that unit runs, its outcome is never
collected because the main loop has exited); `eagerGrab = false` is the
interleaving in which the cancellation wins. -/
def runAllAux (envs : List Env) (failFast eagerGrab : Bool) :
    List Outcome × List FsPath :=
  match envs with
  | [] => ([], [])
  | e :: rest =>
      let o := (runOne e).1
      if failFast && !o.success then
        ([o],
         e.launcher ::
           (if eagerGrab then (rest.head?.map (·.launcher)).toList else []))
      else
        let r := runAllAux rest failFast eagerGrab
        (o :: r.1, e.launcher :: r.2)

/-- The scheduling loop plus the run-level exit decision (lines 461-466):
exit code 1 exactly when some collected outcome failed. -/
def runAllSeq (envs : List Env) (failFast eagerGrab : Bool) : SchedResult :=
  let r := runAllAux envs failFast eagerGrab
  ⟨r.1, r.2, if r.1.any (fun o => !o.success) then 1 else 0⟩

/-- `find_integration_tests` (lines 43-59): keep the launchers whose module
path — the launcher's grandparent directory rendered as a string — contains
the filter pattern case-insensitively; with no filter, keep everything. -/
def findIntegrationTests (launchers : List FsPath)
    (filterPattern : Option String) : List FsPath :=
  match filterPattern with
  | none => launchers
  | some f =>
      launchers.filter (fun l => strContainsCI (pathStr (moduleParent2 l)) f)

/-- What a whole invocation of `main` produces, beyond its side effects:
the process exit code, whether the scheduler (worker pool) was ever
entered, and the collected outcomes. -/
structure MainResult where
  exitCode : Nat
  schedulerInvoked : Bool
  collected : List Outcome
deriving Repr, DecidableEq

/-- `main` (lines 366-468) after a successful environment validation, with
the per-unit environments supplied by `envOf`: discovery, the early return
on an empty launcher set (lines 408-412, implicit exit code 0), and
otherwise the scheduling loop followed by the exit decision. -/
def mainRun (allLaunchers : List FsPath) (filterPattern : Option String)
    (envOf : FsPath → Env) (failFast eagerGrab : Bool) : MainResult :=
  let launchers := findIntegrationTests allLaunchers filterPattern
  if launchers.isEmpty then
    ⟨0, false, []⟩
  else
    let r := runAllSeq (launchers.map envOf) failFast eagerGrab
    ⟨r.exitCode, true, r.collected⟩

/-- `avg_time = sum(execution_times) / len(execution_times) if
execution_times else 0` (line 326). -/
def avgTimeOf (times : List ℚ) : ℚ :=
  if times.isEmpty then 0 else times.sum / times.length

/-- `max_time = max(execution_times) if execution_times else 0` (line 327),
with Python's `max` over a non-empty list. -/
def maxTimeOf (times : List ℚ) : ℚ :=
  match times with
  | [] => 0
  | t :: ts => ts.foldl max t

/-- The numeric aggregates of `generate_report` (lines 318-343). -/
structure ReportStats where
  totalTests : Nat
  passedTests : Nat
  failedCount : Nat
  passedPercent : ℚ
  failedPercent : ℚ
  avgTime : ℚ
  maxTime : ℚ
deriving Repr, DecidableEq

/-- `generate_report` (lines 318-343) up to its numeric content.  The
counts and the guarded average and maximum are computed first, exactly as
in the source; building the report string then evaluates
`passed_tests/total_tests*100` and `len(failed_tests)/total_tests*100`
(lines 339-340), which raises `ZeroDivisionError` when there are no
outcomes — modelled as `none`. -/
def generateReport (results : List Outcome) : Option ReportStats :=
  let totalTests := results.length
  let passedTests := (results.filter (·.success)).length
  let failedTests := results.filter (fun o => !o.success)
  let times := results.map (·.elapsed)
  let avgTime := avgTimeOf times
  let maxTime := maxTimeOf times
  if totalTests = 0 then
    none
  else
    some ⟨totalTests, passedTests, failedTests.length,
          (passedTests : ℚ) / (totalTests : ℚ) * 100,
          (failedTests.length : ℚ) / (totalTests : ℚ) * 100,
          avgTime, maxTime⟩

/-! ### Concrete environments used as test inputs -/

/-- A representative launcher path,
`kotlin/kotlin-hello-world/integration-tests/RunHelloWorld.java`. -/
def sampleLauncher : FsPath :=
  ["kotlin", "kotlin-hello-world", "integration-tests", "RunHelloWorld.java"]

/-- Streaming run: exit code 0, one declared pattern `"NOPE"` that does not
occur in the captured output `"all good"`. -/
def envC1 : Env :=
  { launcher := sampleLauncher
    load := .ok ⟨some 300, ["NOPE"]⟩
    stream := true
    preException := none
    bufferedExec := .completed 0
    streamExec := .run [] (.normal 0)
    output := "all good"
    postException := none
    search := litSearch
    childDuration := 2
    tLoad := 0
    tRun := 2 }

/-- Buffered run whose child exits with code 2 while a declared pattern
does match the output. -/
def envC3 : Env :=
  { launcher := sampleLauncher
    load := .ok ⟨some 300, ["Started"]⟩
    stream := false
    preException := none
    bufferedExec := .completed 2
    streamExec := .run [] (.normal 2)
    output := "Started fine"
    postException := none
    search := litSearch
    childDuration := 1
    tLoad := 0
    tRun := 1 }

/-- A unit whose descriptor file is absent. -/
def envC4 : Env :=
  { launcher := sampleLauncher
    load := .missing
    stream := false
    preException := none
    bufferedExec := .completed 0
    streamExec := .run [] (.normal 0)
    output := ""
    postException := none
    search := litSearch
    childDuration := 0
    tLoad := 0
    tRun := 0 }

/-- Streaming run that reads a line at wall-clock 400s against a 300s
timeout. -/
def envC5w : Env :=
  { launcher := sampleLauncher
    load := .ok ⟨some 300, []⟩
    stream := true
    preException := none
    bufferedExec := .completed 0
    streamExec := .run [⟨"still working", 400⟩] (.normal 0)
    output := ""
    postException := none
    search := litSearch
    childDuration := 400
    tLoad := 0
    tRun := 300 }

/-- Streaming run with `timeoutSec = 5` whose child lives for 10 seconds
but produces no output line after the deadline, then exits with code 0. -/
def envC5c : Env :=
  { launcher := sampleLauncher
    load := .ok ⟨some 5, []⟩
    stream := true
    preException := none
    bufferedExec := .completed 0
    streamExec := .run [] (.normal 0)
    output := "done"
    postException := none
    search := litSearch
    childDuration := 10
    tLoad := 0
    tRun := 10 }

/-- Streaming run whose spawn fails with `"boom"`. -/
def envC6 : Env :=
  { launcher := sampleLauncher
    load := .ok ⟨some 300, []⟩
    stream := true
    preException := none
    bufferedExec := .completed 0
    streamExec := .spawnFail "boom"
    output := ""
    postException := none
    search := litSearch
    childDuration := 0
    tLoad := 0
    tRun := 0 }

/-- First unit of the fail-fast scenario: exits with code 1 (fails). -/
def envC8a : Env :=
  { launcher := ["module-one", "integration-tests", "RunA.java"]
    load := .ok ⟨some 300, []⟩
    stream := false
    preException := none
    bufferedExec := .completed 1
    streamExec := .run [] (.normal 1)
    output := ""
    postException := none
    search := litSearch
    childDuration := 1
    tLoad := 0
    tRun := 1 }

/-- Second unit of the fail-fast scenario: would exit 0 (pass). -/
def envC8b : Env :=
  { launcher := ["module-two", "integration-tests", "RunB.java"]
    load := .ok ⟨some 300, []⟩
    stream := false
    preException := none
    bufferedExec := .completed 0
    streamExec := .run [] (.normal 0)
    output := ""
    postException := none
    search := litSearch
    childDuration := 1
    tLoad := 0
    tRun := 1 }

/-! ### Helper lemmas -/

/-- A message with a long literal head is never the string `"Success"`. -/
theorem append_ne_success (p s : String) (h : 7 < p.length) :
    p ++ s ≠ "Success" := by
  intro hc
  have hl := congrArg String.length hc
  rw [String.length_append] at hl
  have h7 : ("Success" : String).length = 7 := rfl
  omega

/-- Length bound through a left append factor. -/
theorem seven_lt_length_append_left (a b : String) (h : 7 < a.length) :
    7 < (a ++ b).length := by
  rw [String.length_append]; omega

/-- The post-execution phase preserves the launcher and equates success with
the message `"Success"`. -/
theorem afterExec_success_iff (env : Env) (cfg : Config) (rc : Int)
    (b : Bool) :
    (afterExec env cfg rc b).1.launcher = env.launcher ∧
    ((afterExec env cfg rc b).1.success = true ↔
      (afterExec env cfg rc b).1.message = "Success") := by
  rcases hpe : env.postException with _ | e
  · by_cases hrc : rc = 0
    · subst hrc
      simp [afterExec, hpe]
    · refine ⟨by simp [afterExec, hpe, hrc], ?_⟩
      simp [afterExec, hpe, hrc]
      exact append_ne_success _ _ (by decide)
  · refine ⟨by simp [afterExec, hpe], ?_⟩
    simp [afterExec, hpe]
    exact append_ne_success _ _ (by decide)

end RunIT

namespace RunIT

/-- C10. For every environment, the outcome tuple returned by
`run_integration_test` carries the launcher it was given, and its success
flag is `true` exactly when its message is the string `"Success"`: every
failure path (missing descriptor, invalid JSON, timeout, streaming error,
non-zero exit code, execution error) produces a message distinct from
`"Success"`. -/
theorem runOne_success_iff_message (env : Env) :
    (runOne env).1.launcher = env.launcher ∧
    ((runOne env).1.success = true ↔ (runOne env).1.message = "Success") := by
  rcases hl : env.load with _ | e | cfg
  · refine ⟨by simp [runOne, hl], ?_⟩
    simp [runOne, hl]
    exact append_ne_success _ _ (by decide)
  · refine ⟨by simp [runOne, hl], ?_⟩
    simp [runOne, hl]
    exact append_ne_success _ _
      (seven_lt_length_append_left _ _ (seven_lt_length_append_left _ _ (by decide)))
  · rcases hp : env.preException with _ | e
    · cases hs : env.stream
      · rcases hbe : env.bufferedExec with _ | rc | ⟨e, sp⟩
        · refine ⟨by simp [runOne, hl, hp, hs, hbe], ?_⟩
          simp [runOne, hl, hp, hs, hbe]
          exact append_ne_success _ _
            (seven_lt_length_append_left _ _ (by decide))
        · simpa [runOne, hl, hp, hs, hbe] using
            afterExec_success_iff env cfg rc false
        · refine ⟨by simp [runOne, hl, hp, hs, hbe], ?_⟩
          simp [runOne, hl, hp, hs, hbe]
          exact append_ne_success _ _ (by decide)
      · rcases hse : env.streamExec with e | ⟨events, post⟩
        · refine ⟨by simp [runOne, hl, hp, hs, hse], ?_⟩
          simp [runOne, hl, hp, hs, hse]
          exact append_ne_success _ _ (by decide)
        · by_cases hto :
            events.any (fun ev => decide ((cfg.timeout : ℚ) < ev.elapsed)) = true
          · refine ⟨by simp [runOne, hl, hp, hs, hse, hto], ?_⟩
            simp [runOne, hl, hp, hs, hse, hto]
            exact append_ne_success _ _
              (seven_lt_length_append_left _ _ (by decide))
          · rcases post with rc | ⟨e, still⟩
            · simpa [runOne, hl, hp, hs, hse, hto] using
                afterExec_success_iff env cfg rc true
            · refine ⟨by simp [runOne, hl, hp, hs, hse, hto], ?_⟩
              simp [runOne, hl, hp, hs, hse, hto]
              exact append_ne_success _ _ (by decide)
    · refine ⟨by simp [runOne, hl, hp], ?_⟩
      simp [runOne, hl, hp]
      exact append_ne_success _ _ (by decide)

end RunIT

namespace RunIT

/-- The declared timeout is unaffected by replacing the pattern list. -/
theorem timeout_setPatterns (cfg : Config) (ps : List String) :
    Config.timeout { cfg with successRegex := ps } = cfg.timeout := rfl

/-- The outcome tuple (launcher, success, message, elapsed) is invariant
under replacing the declared success patterns: the verdict never consults
them (only the streaming display trace does). -/
theorem runOne_setPatterns_fst (env : Env) (ps : List String) :
    (runOne (setPatterns env ps)).1 = (runOne env).1 := by
  rcases hl : env.load with _ | e | cfg
  · simp [runOne, setPatterns, hl]
  · simp [runOne, setPatterns, hl]
  · rcases hp : env.preException with _ | e
    · cases hs : env.stream
      · rcases hbe : env.bufferedExec with _ | rc | ⟨e, sp⟩
        · simp [runOne, setPatterns, hl, hp, hs, hbe, Config.timeout]
        · rcases hpe : env.postException with _ | e
          · by_cases hrc : rc = 0 <;>
              simp [runOne, setPatterns, hl, hp, hs, hbe, afterExec, hpe, hrc]
          · simp [runOne, setPatterns, hl, hp, hs, hbe, afterExec, hpe]
        · simp [runOne, setPatterns, hl, hp, hs, hbe]
      · rcases hse : env.streamExec with e | ⟨events, post⟩
        · simp [runOne, setPatterns, hl, hp, hs, hse]
        · by_cases hto : ∃ x ∈ events, (cfg.timeout : ℚ) < x.elapsed
          · simp [runOne, setPatterns, hl, hp, hs, hse, timeout_setPatterns, hto]
          · rcases post with rc | ⟨e, still⟩
            · rcases hpe : env.postException with _ | e
              · by_cases hrc : rc = 0 <;>
                  simp [runOne, setPatterns, hl, hp, hs, hse, timeout_setPatterns,
                    hto, afterExec, hpe, hrc]
              · simp [runOne, setPatterns, hl, hp, hs, hse, timeout_setPatterns,
                  hto, afterExec, hpe]
            · simp [runOne, setPatterns, hl, hp, hs, hse, timeout_setPatterns, hto]
    · simp [runOne, setPatterns, hl, hp]

/-- C3. If the child process exits with a non-zero code `rc` (in either
capture mode, with no timeout or exception preempting the exit-code check),
the outcome is a failure with message exactly `"Exit code rc"`, and the
declared success patterns play no part in the verdict: replacing them by
any other list leaves the outcome tuple unchanged. -/
theorem exit_code_nonzero_fails (env : Env) (cfg : Config) (rc : Int)
    (ps : List String)
    (hload : env.load = .ok cfg) (hpre : env.preException = none)
    (hpost : env.postException = none) (hrc : rc ≠ 0)
    (hexec : (env.stream = false ∧ env.bufferedExec = .completed rc) ∨
             (env.stream = true ∧ ∃ events,
               env.streamExec = .run events (.normal rc) ∧
               events.all (fun ev => decide (ev.elapsed ≤ (cfg.timeout : ℚ))) = true)) :
    (runOne env).1.success = false ∧
    (runOne env).1.message = "Exit code " ++ toString rc ∧
    (runOne (setPatterns env ps)).1 = (runOne env).1 := by
  refine ⟨?_, ?_, runOne_setPatterns_fst env ps⟩ <;>
  · rcases hexec with ⟨hs, hbe⟩ | ⟨hs, events, hse, hall⟩
    · simp [runOne, hload, hpre, hs, hbe, afterExec, hpost, hrc]
    · have hto : ¬ ∃ x ∈ events, (cfg.timeout : ℚ) < x.elapsed := by
        rintro ⟨ev, hev, hlt⟩
        have hle := List.all_eq_true.mp hall ev hev
        simp only [decide_eq_true_eq] at hle
        exact absurd hlt (not_lt.mpr hle)
      simp [runOne, hload, hpre, hs, hse, hto, afterExec, hpost, hrc]

/-- Witness for C3 at a concrete buffered run exiting with code 2. -/
theorem exit_code_nonzero_fails_witness :
    (runOne envC3).1.success = false ∧
    (runOne envC3).1.message = "Exit code 2" ∧
    (runOne (setPatterns envC3 [])).1 = (runOne envC3).1 := by
  have h := exit_code_nonzero_fails envC3 ⟨some 300, ["Started"]⟩ 2 []
    rfl rfl rfl (by decide) (Or.inl ⟨rfl, rfl⟩)
  exact ⟨h.1, h.2.1.trans (by decide), h.2.2⟩

/-- C1 (amended). When the child exits with code 0 (and no exception or
timeout preempts the exit-code check), the Runner returns success with
message `"Success"` regardless of whether the declared success patterns
match the captured output — pattern verification is delegated to the
launcher's own exit code; in streaming mode each declared pattern is
re-checked against the captured text with `.` matching newlines, but only
as a displayed FOUND/MISSING diagnostic, recorded here in the trace. -/
theorem exit_zero_success_ignores_patterns (env : Env) (cfg : Config)
    (hload : env.load = .ok cfg) (hpre : env.preException = none)
    (hpost : env.postException = none)
    (hexec : (env.stream = false ∧ env.bufferedExec = .completed 0) ∨
             (env.stream = true ∧ ∃ events,
               env.streamExec = .run events (.normal 0) ∧
               events.all (fun ev => decide (ev.elapsed ≤ (cfg.timeout : ℚ))) = true)) :
    (runOne env).1.success = true ∧
    (runOne env).1.message = "Success" ∧
    (env.stream = true → (runOne env).2.patternChecks =
      cfg.successRegex.map (fun p => (p, env.search p env.output))) := by
  rcases hexec with ⟨hs, hbe⟩ | ⟨hs, events, hse, hall⟩
  · refine ⟨?_, ?_, ?_⟩ <;> simp [runOne, hload, hpre, hs, hbe, afterExec, hpost]
  · have hto : ¬ ∃ x ∈ events, (cfg.timeout : ℚ) < x.elapsed := by
      rintro ⟨ev, hev, hlt⟩
      have hle := List.all_eq_true.mp hall ev hev
      simp only [decide_eq_true_eq] at hle
      exact absurd hlt (not_lt.mpr hle)
    refine ⟨?_, ?_, ?_⟩ <;>
      simp [runOne, hload, hpre, hs, hse, hto, afterExec, hpost]

/-- Counterexample to C1 as stated: a streaming unit exits with code 0
while its declared pattern `"NOPE"` does not match the captured output
`"all good"` (the trace records the MISSING diagnostic), yet the outcome is
`success = true` with message `"Success"`, not a failure enumerating the
unmatched pattern. -/
theorem patterns_ignored_counterexample :
    litSearch "NOPE" "all good" = false ∧
    (runOne envC1).1.success = true ∧
    (runOne envC1).1.message = "Success" ∧
    (runOne envC1).2.patternChecks = [("NOPE", false)] :=
  ⟨by decide, rfl, rfl, by decide⟩

/-- Witness for the amended C1 at the concrete streaming run `envC1`. -/
theorem exit_zero_success_ignores_patterns_witness :
    (runOne envC1).1.success = true ∧
    (runOne envC1).1.message = "Success" := by
  have h := exit_zero_success_ignores_patterns envC1 ⟨some 300, ["NOPE"]⟩
    rfl rfl rfl (Or.inr ⟨rfl, [], rfl, rfl⟩)
  exact ⟨h.1, h.2.1⟩

/-- The scheduler without fail-fast collects one outcome per unit. -/
theorem runAllAux_no_failfast_length (envs : List Env) (eg : Bool) :
    (runAllAux envs false eg).1.length = envs.length := by
  induction envs with
  | nil => rfl
  | cons e rest ih => simp [runAllAux, ih]

/-- C4. A unit whose descriptor is missing or malformed yields a failed
outcome whose elapsed time is just the clock consumed by the load attempt
(no execution phase contributes), with a message naming the missing file or
the parse error; the child process is never spawned, and the run as a whole
continues — the scheduler still collects one outcome for this unit and one
for every other unit. -/
theorem config_failure_no_spawn (env : Env)
    (h : env.load = .missing ∨ ∃ e, env.load = .parseError e) :
    (runOne env).1.success = false ∧
    (runOne env).2 = noSpawn ∧
    (runOne env).1.elapsed = env.tLoad ∧
    (env.load = .missing →
      (runOne env).1.message = "Missing " ++ pathStr (infoFilePath env.launcher)) ∧
    (∀ e, env.load = .parseError e →
      (runOne env).1.message =
        "Invalid JSON in " ++ pathStr (infoFilePath env.launcher) ++ ": " ++ e) ∧
    (∀ rest : List Env,
      (runAllSeq (env :: rest) false false).collected.length = rest.length + 1) := by
  have hcont : ∀ rest : List Env,
      (runAllSeq (env :: rest) false false).collected.length = rest.length + 1 := by
    intro rest
    simpa [runAllSeq] using runAllAux_no_failfast_length (env :: rest) false
  rcases h with hm | ⟨e, hm⟩
  · refine ⟨?_, ?_, ?_, ?_, ?_, hcont⟩ <;> simp [runOne, hm]
  · refine ⟨?_, ?_, ?_, ?_, ?_, hcont⟩ <;> simp [runOne, hm]

/-- Witness for C4 at a concrete unit with no `ExampleInfo.json`. -/
theorem config_failure_no_spawn_witness :
    (runOne envC4).1.success = false ∧
    (runOne envC4).2 = noSpawn ∧
    (runOne envC4).1.elapsed = envC4.tLoad ∧
    (runOne envC4).1.message =
      "Missing kotlin/kotlin-hello-world/integration-tests/ExampleInfo.json" := by
  have h := config_failure_no_spawn envC4 (Or.inl rfl)
  exact ⟨h.1, h.2.1, h.2.2.1, (h.2.2.2.1 rfl).trans (by decide)⟩

/-- C5 (amended). In buffered mode a run whose child exceeds the declared
timeout — `subprocess.run` raising `TimeoutExpired`, which kills the child
— yields a failed outcome `"Timeout after Ns"` with the child no longer
running.  In streaming mode the deadline is only enforced at line
boundaries: whenever some output line is read after the deadline, the
child is terminated and the same timeout outcome is produced. -/
theorem timeout_terminates (env : Env) (cfg : Config)
    (hload : env.load = .ok cfg) (hpre : env.preException = none) :
    (env.stream = false → env.bufferedExec = .timeoutExpired →
      (runOne env).1.success = false ∧
      (runOne env).1.message = "Timeout after " ++ toString cfg.timeout ++ "s" ∧
      (runOne env).2.terminatedByTimeout = true ∧
      (runOne env).2.childRunning = false) ∧
    (∀ events post, env.stream = true → env.streamExec = .run events post →
      (∃ ev ∈ events, (cfg.timeout : ℚ) < ev.elapsed) →
      (runOne env).1.success = false ∧
      (runOne env).1.message = "Timeout after " ++ toString cfg.timeout ++ "s" ∧
      (runOne env).2.terminatedByTimeout = true ∧
      (runOne env).2.childRunning = false) := by
  constructor
  · intro hs hbe
    refine ⟨?_, ?_, ?_, ?_⟩ <;> simp [runOne, hload, hpre, hs, hbe]
  · intro events post hs hse hto
    refine ⟨?_, ?_, ?_, ?_⟩ <;> simp [runOne, hload, hpre, hs, hse, hto]

/-- Witness for the amended C5: a streaming run reads a line at 400s
against a 300s deadline and reports a timeout with the child terminated. -/
theorem timeout_terminates_witness :
    (runOne envC5w).1.success = false ∧
    (runOne envC5w).1.message = "Timeout after 300s" ∧
    (runOne envC5w).2.terminatedByTimeout = true ∧
    (runOne envC5w).2.childRunning = false := by
  have h := (timeout_terminates envC5w ⟨some 300, []⟩ rfl rfl).2
    [⟨"still working", 400⟩] (.normal 0) rfl rfl
    ⟨⟨"still working", 400⟩, by simp, by norm_num [Config.timeout]⟩
  exact ⟨h.1, h.2.1.trans (by decide), h.2.2.1, h.2.2.2⟩

/-- Counterexample to C5 as stated: a streaming unit with `timeoutSec = 5`
whose child lives 10 seconds — exceeding its timeout — but emits no output
line after the deadline; the runner never notices the deadline, and the
outcome is `"Success"` rather than `"Timeout after 5s"`. -/
theorem timeout_streaming_counterexample :
    Config.timeout ⟨some 5, []⟩ = 5 ∧
    (5 : ℚ) < envC5c.childDuration ∧
    envC5c.stream = true ∧
    (runOne envC5c).1.success = true ∧
    (runOne envC5c).1.message = "Success" :=
  ⟨rfl, by norm_num [envC5c], rfl, rfl, rfl⟩

/-- C6 (amended). Every execution anomaly other than a timeout is caught
inside `run_integration_test` and surfaced as a failed outcome carrying
the underlying cause: anomalies before the spawn, buffered-mode
spawn/I-O failures, and failures while reading the log back are reported
as `"Execution error: …"`, while anomalies inside the streaming section
(spawn failure or a mid-stream exception) are reported as
`"Streaming error: …"`; in no case does the exception escape into the
scheduler's collection loop (the runner is a total function). -/
theorem execution_anomaly_contained (env : Env) (cfg : Config) (e : String)
    (hload : env.load = .ok cfg) :
    (env.preException = some e →
      (runOne env).1.success = false ∧
      (runOne env).1.message = "Execution error: " ++ e) ∧
    (∀ sp, env.preException = none → env.stream = false →
      env.bufferedExec = .raised e sp →
      (runOne env).1.success = false ∧
      (runOne env).1.message = "Execution error: " ++ e) ∧
    (env.preException = none → env.stream = true →
      env.streamExec = .spawnFail e →
      (runOne env).1.success = false ∧
      (runOne env).1.message = "Streaming error: " ++ e ∧
      (runOne env).2.spawned = false) ∧
    (∀ events still, env.preException = none → env.stream = true →
      env.streamExec = .run events (.exception e still) →
      (¬ ∃ ev ∈ events, (cfg.timeout : ℚ) < ev.elapsed) →
      (runOne env).1.success = false ∧
      (runOne env).1.message = "Streaming error: " ++ e) ∧
    (∀ rc, env.preException = none → env.postException = some e →
      ((env.stream = false ∧ env.bufferedExec = .completed rc) ∨
       (env.stream = true ∧ ∃ events,
         env.streamExec = .run events (.normal rc) ∧
         (¬ ∃ ev ∈ events, (cfg.timeout : ℚ) < ev.elapsed))) →
      (runOne env).1.success = false ∧
      (runOne env).1.message = "Execution error: " ++ e) := by
  refine ⟨?_, ?_, ?_, ?_, ?_⟩
  · intro hp
    constructor <;> simp [runOne, hload, hp]
  · intro sp hp hs hbe
    constructor <;> simp [runOne, hload, hp, hs, hbe]
  · intro hp hs hse
    refine ⟨?_, ?_, ?_⟩ <;> simp [runOne, hload, hp, hs, hse, noSpawn]
  · intro events still hp hs hse hto
    constructor <;> simp [runOne, hload, hp, hs, hse, hto]
  · intro rc hp hpe hexec
    rcases hexec with ⟨hs, hbe⟩ | ⟨hs, events, hse, hto⟩
    · constructor <;> simp [runOne, hload, hp, hs, hbe, afterExec, hpe]
    · constructor <;> simp [runOne, hload, hp, hs, hse, hto, afterExec, hpe]

/-- Counterexample to C6 as stated: a spawn failure in streaming mode is
caught and contained, but its message is `"Streaming error: boom"`, which
is not an `"Execution error"` description. -/
theorem anomaly_message_counterexample :
    (runOne envC6).1.success = false ∧
    (runOne envC6).1.message = "Streaming error: boom" ∧
    "Execution error".data.isPrefixOf (runOne envC6).1.message.data = false :=
  ⟨rfl, rfl, by decide⟩

/-- Witness for the amended C6 at the concrete spawn failure `envC6`. -/
theorem execution_anomaly_contained_witness :
    (runOne envC6).1.success = false ∧
    (runOne envC6).1.message = "Streaming error: boom" ∧
    (runOne envC6).2.spawned = false := by
  have h := (execution_anomaly_contained envC6 ⟨some 300, []⟩ "boom" rfl).2.2.1
    rfl rfl rfl
  exact ⟨h.1, h.2.1.trans (by decide), h.2.2⟩

/-- The scheduler always collects at least one outcome when given at least
one unit. -/
theorem runAllAux_collected_ne_nil (e : Env) (rest : List Env)
    (ff eg : Bool) : (runAllAux (e :: rest) ff eg).1 ≠ [] := by
  simp only [runAllAux]
  split <;> simp

/-- C2 (amended). The average and the maximum elapsed time are guarded
against the empty outcome set (both evaluate to 0 there), but the pass and
fail percentages are not: building the report divides the counts by the
total, so report generation fails (raises `ZeroDivisionError`) exactly on
the empty outcome set — which the program never feeds it, since the
scheduler is only entered with at least one discovered unit and then
always collects at least one outcome. -/
theorem report_divzero_guard :
    avgTimeOf [] = 0 ∧ maxTimeOf [] = 0 ∧
    (∀ results : List Outcome, generateReport results = none ↔ results = []) ∧
    (∀ (allLaunchers : List FsPath) (filt : Option String)
       (envOf : FsPath → Env) (ff eg : Bool),
      (mainRun allLaunchers filt envOf ff eg).schedulerInvoked = true →
      (mainRun allLaunchers filt envOf ff eg).collected ≠ []) := by
  refine ⟨rfl, rfl, ?_, ?_⟩
  · intro results
    cases results <;> simp [generateReport]
  · intro allLaunchers filt envOf ff eg hinv
    rcases hL : findIntegrationTests allLaunchers filt with _ | ⟨l, ls⟩
    · simp [mainRun, hL] at hinv
    · simpa [mainRun, hL, runAllSeq] using
        runAllAux_collected_ne_nil (envOf l) (ls.map envOf) ff eg

/-- Counterexample to C2 as stated: on the empty outcome collection the
report computation performs a division by zero (modelled as `none`) — the
percentages are not guarded. -/
theorem report_empty_counterexample : generateReport [] = none := rfl

/-- Witness for the amended C2: a concrete invocation that enters the
scheduler has a non-empty outcome collection, and the guarded aggregates
are defined on the empty set. -/
theorem report_divzero_guard_witness :
    avgTimeOf [] = 0 ∧
    (mainRun [sampleLauncher] none (fun _ => envC4) false false).collected ≠ [] :=
  ⟨report_divzero_guard.1,
   report_divzero_guard.2.2.2 [sampleLauncher] none (fun _ => envC4) false false rfl⟩

/-- The passed and failed outcome counts partition the outcome list. -/
theorem filter_partition_length (l : List Outcome) :
    (l.filter (·.success)).length + (l.filter (fun x => !x.success)).length
      = l.length := by
  induction l with
  | nil => rfl
  | cons a t ih =>
      cases ha : a.success <;> simp [List.filter_cons, ha] <;> omega

/-- The seed of a left max-fold is bounded by the fold. -/
theorem foldl_max_init_le (l : List ℚ) (init : ℚ) :
    init ≤ l.foldl max init := by
  induction l generalizing init with
  | nil => simp
  | cons y t ih =>
      rw [List.foldl_cons]
      exact le_trans (le_max_left init y) (ih (max init y))

/-- Every member of a list is bounded by a left max-fold over it. -/
theorem mem_le_foldl_max (l : List ℚ) (init x : ℚ) :
    x ∈ l → x ≤ l.foldl max init := by
  induction l generalizing init with
  | nil => intro h; cases h
  | cons y t ih =>
      intro h
      rw [List.foldl_cons]
      rcases List.mem_cons.mp h with rfl | h2
      · exact le_trans (le_max_right init x) (foldl_max_init_le t _)
      · exact ih _ h2

/-- On a non-empty time list, the average is bounded by the maximum. -/
theorem avg_le_max (t : ℚ) (ts : List ℚ) :
    avgTimeOf (t :: ts) ≤ maxTimeOf (t :: ts) := by
  have hM : ∀ x ∈ t :: ts, x ≤ maxTimeOf (t :: ts) := by
    intro x hx
    rcases List.mem_cons.mp hx with rfl | h2
    · exact foldl_max_init_le ts x
    · exact mem_le_foldl_max ts t x h2
  have hsum : (t :: ts).sum ≤ ((t :: ts).length : ℚ) * maxTimeOf (t :: ts) := by
    have h := List.sum_le_card_nsmul (t :: ts) (maxTimeOf (t :: ts)) hM
    simpa [nsmul_eq_mul] using h
  have hlen : (0 : ℚ) < ((t :: ts).length : ℚ) := by
    exact_mod_cast Nat.succ_pos ts.length
  have havg : avgTimeOf (t :: ts) = (t :: ts).sum / ((t :: ts).length : ℚ) := by
    simp [avgTimeOf]
  rw [havg, div_le_iff₀ hlen, mul_comm]
  exact hsum

/-- C7. For every non-empty outcome collection the report is produced and
its aggregates are coherent: passed plus failed counts equal the total,
the pass and fail percentages sum to exactly 100, and the average elapsed
time is bounded by the maximum elapsed time. -/
theorem report_aggregates (o : Outcome) (rest : List Outcome) :
    ∃ stats, generateReport (o :: rest) = some stats ∧
      stats.passedTests + stats.failedCount = stats.totalTests ∧
      stats.passedPercent + stats.failedPercent = 100 ∧
      stats.avgTime ≤ stats.maxTime := by
  have hgr : generateReport (o :: rest) =
      some ⟨(o :: rest).length,
            ((o :: rest).filter (·.success)).length,
            ((o :: rest).filter (fun x => !x.success)).length,
            (((o :: rest).filter (·.success)).length : ℚ) /
              ((o :: rest).length : ℚ) * 100,
            (((o :: rest).filter (fun x => !x.success)).length : ℚ) /
              ((o :: rest).length : ℚ) * 100,
            avgTimeOf ((o :: rest).map (·.elapsed)),
            maxTimeOf ((o :: rest).map (·.elapsed))⟩ := by
    simp [generateReport]
  refine ⟨_, hgr, ?_, ?_, ?_⟩
  · exact filter_partition_length (o :: rest)
  · have hlenpos : (0 : ℚ) < ((o :: rest).length : ℚ) := by
      exact_mod_cast Nat.succ_pos rest.length
    have hlen0 : ((o :: rest).length : ℚ) ≠ 0 := ne_of_gt hlenpos
    have hpf : (((o :: rest).filter (·.success)).length : ℚ) +
        (((o :: rest).filter (fun x => !x.success)).length : ℚ) =
        ((o :: rest).length : ℚ) := by
      exact_mod_cast filter_partition_length (o :: rest)
    field_simp
    simp only [List.length_cons] at hpf
    push_cast at hpf ⊢
    linarith [hpf]
  · simpa using avg_le_max o.elapsed (rest.map (·.elapsed))

/-- C8 (amended). With fail-fast enabled, once the first failed outcome is
collected the Scheduler collects nothing further — later units contribute
no outcome at all, in particular no `"Success"` — and the run-level exit
code is 1.  Cancellation of not-yet-started units is only a request: under
the interleaving in which the cancellation is processed before the worker
thread grabs new work, the pending unit is never dispatched, but under the
rival interleaving the single worker picks up the next pending unit before
its cancellation and that unit still runs to completion (it is not killed;
its outcome is simply never collected). -/
theorem failfast_stops_collection (e1 : Env) (rest : List Env) (eg : Bool)
    (h1 : (runOne e1).1.success = false) :
    (runAllSeq (e1 :: rest) true eg).collected = [(runOne e1).1] ∧
    (runAllSeq (e1 :: rest) true eg).exitCode = 1 ∧
    (runAllSeq (e1 :: rest) true false).dispatched = [e1.launcher] ∧
    (∀ e2 rest2, rest = e2 :: rest2 →
      (runAllSeq (e1 :: rest) true true).dispatched =
        [e1.launcher, e2.launcher]) := by
  refine ⟨?_, ?_, ?_, ?_⟩
  · simp [runAllSeq, runAllAux, h1]
  · simp [runAllSeq, runAllAux, h1]
  · simp [runAllSeq, runAllAux, h1]
  · rintro e2 rest2 rfl
    simp [runAllSeq, runAllAux, h1]

/-- Counterexample to C8 as stated: with fail-fast on and one worker, the
first unit fails, and under the interleaving in which the worker grabs the
next queued unit before the cancellation request reaches it, the pending
second unit is dispatched anyway; only its outcome is dropped (the
collected outcomes stop at the failure) and the exit code is 1. -/
theorem failfast_dispatch_counterexample :
    (runOne envC8a).1.success = false ∧
    (runAllSeq [envC8a, envC8b] true true).dispatched =
      [envC8a.launcher, envC8b.launcher] ∧
    (runAllSeq [envC8a, envC8b] true true).collected = [(runOne envC8a).1] ∧
    (runAllSeq [envC8a, envC8b] true true).exitCode = 1 :=
  ⟨rfl, rfl, rfl, rfl⟩

/-- Witness for the amended C8 at the concrete two-unit fail-fast run,
under the interleaving in which the cancellation wins. -/
theorem failfast_stops_collection_witness :
    (runAllSeq [envC8a, envC8b] true false).collected = [(runOne envC8a).1] ∧
    (runAllSeq [envC8a, envC8b] true false).exitCode = 1 ∧
    (runAllSeq [envC8a, envC8b] true false).dispatched = [envC8a.launcher] := by
  have h := failfast_stops_collection envC8a [envC8b] false rfl
  exact ⟨h.1, h.2.1, h.2.2.1⟩

/-- C9. Whenever discovery — the case-insensitive substring filter applied
to each launcher's grandparent module path — yields no launchers, the run
returns early with exit code 0: the scheduler is never entered and no unit
is run. -/
theorem empty_discovery_clean_exit (allLaunchers : List FsPath)
    (filt : Option String) (envOf : FsPath → Env) (ff eg : Bool)
    (h : findIntegrationTests allLaunchers filt = []) :
    (mainRun allLaunchers filt envOf ff eg).exitCode = 0 ∧
    (mainRun allLaunchers filt envOf ff eg).schedulerInvoked = false ∧
    (mainRun allLaunchers filt envOf ff eg).collected = [] := by
  refine ⟨?_, ?_, ?_⟩ <;> simp [mainRun, h]

/-- Witness for C9: the filter `"ZZZ"` matches no module path, and the run
exits cleanly without entering the scheduler. -/
theorem empty_discovery_clean_exit_witness :
    (mainRun [["module-a", "integration-tests", "RunA.java"]] (some "ZZZ")
      (fun _ => envC4) false false).exitCode = 0 ∧
    (mainRun [["module-a", "integration-tests", "RunA.java"]] (some "ZZZ")
      (fun _ => envC4) false false).schedulerInvoked = false := by
  have h := empty_discovery_clean_exit
    [["module-a", "integration-tests", "RunA.java"]] (some "ZZZ")
    (fun _ => envC4) false false (by decide)
  exact ⟨h.1, h.2.1⟩

end RunIT
